import Mathlib

/-!
Verification development for the `cgc-strategy` garbage-collector contract
layer.

The Rust source is shallowly embedded as follows.

* A `Handle` (Rust `usize`) is a natural number.
* The reachability visitor of `TraceContext` is a side-effecting callback
  `&dyn Fn(Handle)`; we model a trace call in writer style: `Trace.trace`
  returns the list of handles passed to the visitor, in invocation order.
  `TraceContext.accept gc` — which invokes the visitor once, on
  `gc.handle` — therefore denotes the one-element list `[gc.handle]`,
  and running a loop body `elem.trace(ctx)` over a container concatenates
  the per-element reports.
* The `GcStrategy` trait is a record of state-transition functions over an
  abstract backend state `σ`; the heap facade threads a `HeapState`
  (backend state, value memory, and an event log recording every backend
  call and storage write the facade performs, in order).
* `panic!("out of memory")` is modelled by the `AllocResult.fatal`
  constructor: the facade does not return a root guard on that path.
-/

namespace Cgc

/-- Rust `type Handle = usize`. -/
abbrev Handle := Nat

/-- `Gc<T>`: a typed handle; the phantom parameter `T` carries no data. -/
structure Gc (T : Type) where
  handle : Handle
deriving DecidableEq

/-- `TraceContext::accept` invokes the visitor exactly once, on `gc.handle`;
in the writer-style model its report is the one-element list. -/
def TraceContext.accept {T : Type} (gc : Gc T) : List Handle :=
  [gc.handle]

/-- The `Trace` trait: `trace` denotes the list of handles the
implementation reports to the visitor, in order. -/
class Trace (α : Type) where
  trace : α → List Handle

/- Base value types appearing in the `empty_trace!` invocation, modelled by
their value sets (the trace method ignores the value entirely). -/

/-- Rust `u8`. -/
abbrev U8 := Fin 256

/-- Rust `u64`. -/
abbrev U64 := Fin (2 ^ 64)

/-- Rust `i32`, by its bit pattern. -/
structure I32 where
  bits : Fin (2 ^ 32)

/-- Rust `f64`, by its bit pattern. -/
structure F64 where
  bits : Fin (2 ^ 64)

/-- Rust `std::path::PathBuf`. -/
structure PathBuf where
  path : String

/-- Rust `std::any::TypeId`. -/
structure TypeId where
  id : Nat

/-- Rust `std::marker::PhantomData<T>`: a zero-sized marker. -/
structure PhantomData (T : Type) where
  mk ::

/-- Rust `std::marker::PhantomPinned`: a zero-sized marker. -/
structure PhantomPinned where
  mk ::

/-- A function pointer `fn(A) -> R`: an opaque code address carrying no
handles. -/
structure FnPtr (A R : Type) where
  addr : Nat

/- `empty_trace!` base implementations: the method body is empty, so the
visitor is never invoked. -/

instance instTraceU8 : Trace U8 := ⟨fun _ => []⟩

instance instTraceU64 : Trace U64 := ⟨fun _ => []⟩

instance instTraceI32 : Trace I32 := ⟨fun _ => []⟩

instance instTraceF64 : Trace F64 := ⟨fun _ => []⟩

instance instTraceChar : Trace Char := ⟨fun _ => []⟩

instance instTraceString : Trace String := ⟨fun _ => []⟩

instance instTracePathBuf : Trace PathBuf := ⟨fun _ => []⟩

instance instTraceTypeId : Trace TypeId := ⟨fun _ => []⟩

instance instTraceUnit : Trace Unit := ⟨fun _ => []⟩

instance instTracePhantomData (T : Type) : Trace (PhantomData T) := ⟨fun _ => []⟩

instance instTracePhantomPinned : Trace PhantomPinned := ⟨fun _ => []⟩

instance instTraceFnPtr (A R : Type) : Trace (FnPtr A R) := ⟨fun _ => []⟩

/-- `impl Trace for Gc<T>`: the body is `ctx.accept(*self)`. -/
instance instTraceGc (T : Type) : Trace (Gc T) :=
  ⟨fun g => TraceContext.accept g⟩

/-- The loop `for elem in self { elem.trace(ctx); }` shared by the slice,
array, `Vec`, `VecDeque` and `LinkedList` implementations: the visitor
reports of the elements are emitted in iteration order. -/
def traceEach {α : Type} (tr : α → List Handle) : List α → List Handle
  | [] => []
  | x :: xs => tr x ++ traceEach tr xs

/-- Rust `[T; N]`, a fixed-size array: a sequence of exactly `n` elements. -/
structure GcArray (α : Type) (n : Nat) where
  elems : List α
  len_eq : elems.length = n

/-- Rust `[T]` (a slice), by its element sequence. -/
structure Slice (α : Type) where
  elems : List α

/-- Rust `Vec<T>`, by its element sequence. -/
structure Vec (α : Type) where
  elems : List α

/-- Rust `VecDeque<T>`, by its front-to-back element sequence. -/
structure VecDeque (α : Type) where
  elems : List α

/-- Rust `LinkedList<T>`, by its front-to-back element sequence. -/
structure LinkedList (α : Type) where
  elems : List α

/-- Rust `Box<T>`: unique ownership of one referent. -/
structure Box (α : Type) where
  val : α

/-- Rust `Rc<T>`: shared ownership; the reference counts are data the trace
implementation must not touch. -/
structure Rc (α : Type) where
  strong : Nat
  weak : Nat
  val : α

/-- Rust `Arc<T>`: atomically reference-counted shared ownership. -/
structure Arc (α : Type) where
  strong : Nat
  weak : Nat
  val : α

/-- Rust `Result<T, E>`. -/
inductive Result (T E : Type) where
  | Ok : T → Result T E
  | Err : E → Result T E

instance instTraceArray (α : Type) [Trace α] (n : Nat) : Trace (GcArray α n) :=
  ⟨fun a => traceEach Trace.trace a.elems⟩

instance instTraceSlice (α : Type) [Trace α] : Trace (Slice α) :=
  ⟨fun s => traceEach Trace.trace s.elems⟩

instance instTraceVec (α : Type) [Trace α] : Trace (Vec α) :=
  ⟨fun v => traceEach Trace.trace v.elems⟩

instance instTraceVecDeque (α : Type) [Trace α] : Trace (VecDeque α) :=
  ⟨fun v => traceEach Trace.trace v.elems⟩

instance instTraceLinkedList (α : Type) [Trace α] : Trace (LinkedList α) :=
  ⟨fun v => traceEach Trace.trace v.elems⟩

/-- `impl Trace for Box<T>`: `(**self).trace(ctx)`. -/
instance instTraceBox (α : Type) [Trace α] : Trace (Box α) :=
  ⟨fun b => Trace.trace b.val⟩

/-- `impl Trace for Rc<T>`: forwards to the referent, never reading the
counts. -/
instance instTraceRc (α : Type) [Trace α] : Trace (Rc α) :=
  ⟨fun r => Trace.trace r.val⟩

/-- `impl Trace for Arc<T>`: forwards to the referent, never reading the
counts. -/
instance instTraceArc (α : Type) [Trace α] : Trace (Arc α) :=
  ⟨fun r => Trace.trace r.val⟩

/-- `impl Trace for Option<T>`: `if let Some(v) = self { v.trace(ctx) }`. -/
instance instTraceOption (α : Type) [Trace α] : Trace (Option α) :=
  ⟨fun o => match o with
    | none => []
    | some v => Trace.trace v⟩

/-- `impl Trace for Result<T, E>`: traces whichever variant is present. -/
instance instTraceResult (T E : Type) [Trace T] [Trace E] : Trace (Result T E) :=
  ⟨fun r => match r with
    | .Ok t => Trace.trace t
    | .Err e => Trace.trace e⟩

/-- `tuple_trace!` for arity 2: each component is traced once, in order.
Higher arities nest on the right. -/
instance instTracePair (α β : Type) [Trace α] [Trace β] : Trace (α × β) :=
  ⟨fun p => Trace.trace p.1 ++ Trace.trace p.2⟩

/-- The handles directly stored in a sequence of typed handles, as the spec
counts them: one per stored element, order irrelevant. -/
def directHandles {T : Type} (l : List (Gc T)) : Multiset Handle :=
  (l.map Gc.handle : List Handle)

/-- The handles directly stored in an optional typed handle. -/
def directHandlesOpt {T : Type} : Option (Gc T) → Multiset Handle
  | none => 0
  | some g => {g.handle}

/-- The handles directly stored in a result of typed handles. -/
def directHandlesResult {T E : Type} : Result (Gc T) (Gc E) → Multiset Handle
  | .Ok t => {t.handle}
  | .Err e => {e.handle}

/-! ## The heap facade and the collector backend interface (`lib.rs`) -/

/-- Rust `std::alloc::Layout`: a size and an alignment. -/
structure Layout where
  size : Nat
  align : Nat
deriving DecidableEq

/-- `Layout::new::<T>()`: the statically known layout of a value type. -/
class LayoutOf (α : Type) where
  layout : Layout

/-- `GcVtable`: per-type descriptor with the layout and the type-erased
trace-dispatch function. The dispatch function is modelled after the
pointer cast `ptr.cast::<T>().as_ref()` has been resolved: it takes the
referenced value itself. -/
structure GcVtable (V : Type) where
  layout : Layout
  trace : V → List Handle

/-- `GcVtable::for_type::<T>()`: builds the descriptor for `T` from `T`'s
layout and `T`'s `Trace` implementation. -/
def GcVtable.for_type (V : Type) [LayoutOf V] [Trace V] : GcVtable V :=
  { layout := LayoutOf.layout V
    trace := fun x => Trace.trace x }

/-- `FreshAllocation`: the handle of the new GC node, and the storage
address (Rust `*mut ()`, modelled as a numeric address) where the value
will be written. -/
structure FreshAllocation where
  handle : Handle
  ptr : Nat
deriving DecidableEq

/-- The `GcStrategy` trait: a backend is a set of transition functions over
an abstract backend state `σ`. `allocate` may refuse (`none`) on
exhaustion; `pin` returns a stable address. -/
structure GcStrategy (σ V : Type) where
  allocate : σ → GcVtable V → Option FreshAllocation × σ
  setInitialized : σ → Handle → σ
  setFinalized : σ → Handle → σ
  pin : σ → Handle → Nat × σ
  unpin : σ → Handle → σ
  root : σ → Handle → σ
  unroot : σ → Handle → σ

/-- One observable step the facade performs: a call into the backend, or a
write of the allocated value into backend-managed storage. -/
inductive BackendEvent where
  | allocate (layout : Layout)
  | setInitialized (h : Handle)
  | setFinalized (h : Handle)
  | pin (h : Handle)
  | unpin (h : Handle)
  | root (h : Handle)
  | unroot (h : Handle)
  | write (addr : Nat)
deriving DecidableEq

/-- The state the facade threads: the backend state, the backend-managed
value storage, and the log of events performed so far (oldest first). -/
structure HeapState (σ V : Type) where
  strat : σ
  mem : Nat → Option V
  log : List BackendEvent

/-- Perform `self.strategy.allocate(vtable)` and record it. -/
def callAllocate {σ V : Type} (S : GcStrategy σ V) (w : HeapState σ V)
    (vtable : GcVtable V) : Option FreshAllocation × HeapState σ V :=
  let p := S.allocate w.strat vtable
  (p.1, { w with
            strat := p.2
            log := w.log ++ [BackendEvent.allocate vtable.layout] })

/-- Perform `self.strategy.set_initialized(h)` and record it. -/
def callSetInitialized {σ V : Type} (S : GcStrategy σ V) (w : HeapState σ V)
    (h : Handle) : HeapState σ V :=
  { w with
      strat := S.setInitialized w.strat h
      log := w.log ++ [BackendEvent.setInitialized h] }

/-- Perform `self.strategy.root(h)` and record it. -/
def callRoot {σ V : Type} (S : GcStrategy σ V) (w : HeapState σ V)
    (h : Handle) : HeapState σ V :=
  { w with
      strat := S.root w.strat h
      log := w.log ++ [BackendEvent.root h] }

/-- Perform `self.strategy.unroot(h)` and record it. -/
def callUnroot {σ V : Type} (S : GcStrategy σ V) (w : HeapState σ V)
    (h : Handle) : HeapState σ V :=
  { w with
      strat := S.unroot w.strat h
      log := w.log ++ [BackendEvent.unroot h] }

/-- Perform `alloc.ptr.cast::<T>().write(value)` and record it. -/
def writeValue {σ V : Type} (w : HeapState σ V) (addr : Nat) (value : V) :
    HeapState σ V :=
  { w with
      mem := fun a => if a = addr then some value else w.mem a
      log := w.log ++ [BackendEvent.write addr] }

/-- `Root<'root, S, T>`: the scoped root guard, holding the typed handle it
wraps (the backend reference is passed explicitly to its operations). -/
structure Root (T : Type) where
  handle : Gc T
deriving DecidableEq

/-- `impl Deref for Root`: dereferencing a guard yields the wrapped typed
handle. -/
def Root.deref {T : Type} (r : Root T) : Gc T :=
  r.handle

/-- `impl Drop for Root`: the destructor body is
`self.gc.unroot(self.handle.handle)`. -/
def Root.drop {σ V T : Type} (S : GcStrategy σ V) (r : Root T)
    (w : HeapState σ V) : HeapState σ V :=
  callUnroot S w r.handle.handle

/-- The outcome of `GcHeap::alloc`: either a root guard and the new heap
state, or the fatal out-of-memory abort (the state at the abort point is
kept so the abort path can be observed). -/
inductive AllocResult (σ V : Type) where
  | ok (root : Root V) (w : HeapState σ V)
  | fatal (msg : String) (w : HeapState σ V)

/-- The heap state an allocation attempt ends in, on either path. -/
def AllocResult.world {σ V : Type} : AllocResult σ V → HeapState σ V
  | .ok _ w => w
  | .fatal _ w => w

/-- The raw handle wrapped by the returned guard, when one is returned. -/
def AllocResult.rootHandle {σ V : Type} : AllocResult σ V → Option Handle
  | .ok r _ => some r.handle.handle
  | .fatal _ _ => none

/-- The typed handle obtained by dereferencing the returned guard, when one
is returned. -/
def AllocResult.derefRoot {σ V : Type} : AllocResult σ V → Option (Gc V)
  | .ok r _ => some (Root.deref r)
  | .fatal _ _ => none

/-- `GcHeap::alloc`: obtain `T`'s descriptor, call backend `allocate`; on
success write the value into the returned storage, call `set_initialized`
on the returned handle, and wrap that handle in a root guard; on `None`,
abort with "out of memory". -/
def GcHeap.alloc {σ V : Type} [LayoutOf V] [Trace V] (S : GcStrategy σ V)
    (w : HeapState σ V) (value : V) : AllocResult σ V :=
  let vtable := GcVtable.for_type V
  match callAllocate S w vtable with
  | (some a, w1) =>
    let w2 := writeValue w1 a.ptr value
    let w3 := callSetInitialized S w2 a.handle
    AllocResult.ok { handle := { handle := a.handle } } w3
  | (none, w1) => AllocResult.fatal "out of memory" w1

/-- `GcHeap::root`: call backend `root` on the handle's identifier and
return a new guard wrapping the same typed handle. -/
def GcHeap.root {σ V T : Type} (S : GcStrategy σ V) (w : HeapState σ V)
    (value : Gc T) : Root T × HeapState σ V :=
  ({ handle := value }, callRoot S w value.handle)

/-- Scenario used for root balance: allocate, then immediately drop the
returned guard (on the abort path there is no guard to drop). -/
def allocThenDrop {σ V : Type} [LayoutOf V] [Trace V] (S : GcStrategy σ V)
    (w : HeapState σ V) (value : V) : HeapState σ V :=
  match GcHeap.alloc S w value with
  | .ok r w1 => Root.drop S r w1
  | .fatal _ w1 => w1

/-- Recognizes a backend `root` call in the event log. -/
def isRootEvent : BackendEvent → Bool
  | .root _ => true
  | _ => false

/-- Recognizes a backend `allocate` call in the event log. -/
def isAllocateEvent : BackendEvent → Bool
  | .allocate _ => true
  | _ => false

instance instLayoutOfU8 : LayoutOf U8 := ⟨{ size := 1, align := 1 }⟩

/-- A deterministic demonstration backend over a counter state: the `n`-th
allocation receives handle `n` and storage address `100 + n`. -/
def demoStrategy : GcStrategy Nat U8 :=
  { allocate := fun s _ => (some { handle := s, ptr := 100 + s }, s + 1)
    setInitialized := fun s _ => s
    setFinalized := fun s _ => s
    pin := fun s _ => (0, s)
    unpin := fun s _ => s
    root := fun s _ => s
    unroot := fun s _ => s }

/-- A demonstration backend that is always out of space. -/
def oomStrategy : GcStrategy Nat U8 :=
  { allocate := fun s _ => (none, s)
    setInitialized := fun s _ => s
    setFinalized := fun s _ => s
    pin := fun s _ => (0, s)
    unpin := fun s _ => s
    root := fun s _ => s
    unroot := fun s _ => s }

/-- The initial demonstration heap state: empty memory and an empty log. -/
def demoState : HeapState Nat U8 :=
  { strat := 0, mem := fun _ => none, log := [] }

/-! ## Helper lemmas -/

/-- Tracing a sequence of typed handles reports exactly the stored handles,
in storage order. -/
theorem traceEach_gc {T : Type} (l : List (Gc T)) :
    traceEach Trace.trace l = l.map Gc.handle := by
  induction l with
  | nil => rfl
  | cons x xs ih =>
    simp only [traceEach, List.map]
    rw [ih]
    rfl

/-! ## Claim theorems -/

/-- Claim C3: tracing a typed handle `Gc T` reports exactly one handle to
the visitor — the handle's own identifier — and recurses no further, for
every `T` and every handle value. -/
theorem gc_trace_is_leaf (T : Type) (g : Gc T) :
    Trace.trace g = [g.handle] :=
  rfl

/-- Claim C7: every base-case trace implementation reports no handles: for
scalar and numeric types, text and path types, the unit type, zero-sized
markers, `TypeId`, and function pointers, a trace call invokes the visitor
zero times. -/
theorem base_trace_empty :
    (∀ x : U8, Trace.trace x = []) ∧
    (∀ x : U64, Trace.trace x = []) ∧
    (∀ x : I32, Trace.trace x = []) ∧
    (∀ x : F64, Trace.trace x = []) ∧
    (∀ x : Char, Trace.trace x = []) ∧
    (∀ x : String, Trace.trace x = []) ∧
    (∀ x : PathBuf, Trace.trace x = []) ∧
    (∀ x : TypeId, Trace.trace x = []) ∧
    (∀ x : Unit, Trace.trace x = []) ∧
    (∀ (T : Type) (x : PhantomData T), Trace.trace x = []) ∧
    (∀ x : PhantomPinned, Trace.trace x = []) ∧
    (∀ (A R : Type) (x : FnPtr A R), Trace.trace x = []) :=
  ⟨fun _ => rfl, fun _ => rfl, fun _ => rfl, fun _ => rfl, fun _ => rfl,
   fun _ => rfl, fun _ => rfl, fun _ => rfl, fun _ => rfl,
   fun _ _ => rfl, fun _ => rfl, fun _ _ _ => rfl⟩

/-- Claim C1: every structural trace implementation (fixed-size arrays,
slices, `Vec`, `VecDeque`, `LinkedList`, `Option`, `Result`, tuples)
reports exactly the multiset of handles directly stored in the value, for
containers of any size, and the ownership wrappers `Box`, `Rc` and `Arc`
forward to exactly the referent's trace. -/
theorem structural_trace_exact (T U E α : Type) [Trace α] :
    (∀ (n : Nat) (a : GcArray (Gc T) n),
      (Trace.trace a : Multiset Handle) = directHandles a.elems) ∧
    (∀ s : Slice (Gc T),
      (Trace.trace s : Multiset Handle) = directHandles s.elems) ∧
    (∀ v : Vec (Gc T),
      (Trace.trace v : Multiset Handle) = directHandles v.elems) ∧
    (∀ v : VecDeque (Gc T),
      (Trace.trace v : Multiset Handle) = directHandles v.elems) ∧
    (∀ v : LinkedList (Gc T),
      (Trace.trace v : Multiset Handle) = directHandles v.elems) ∧
    (∀ o : Option (Gc T),
      (Trace.trace o : Multiset Handle) = directHandlesOpt o) ∧
    (∀ r : Result (Gc T) (Gc E),
      (Trace.trace r : Multiset Handle) = directHandlesResult r) ∧
    (∀ p : Gc T × Gc U,
      (Trace.trace p : Multiset Handle) = {p.1.handle, p.2.handle}) ∧
    (∀ t : Gc T × Gc U × Gc E,
      (Trace.trace t : Multiset Handle) =
        {t.1.handle, t.2.1.handle, t.2.2.handle}) ∧
    (∀ b : Box α, Trace.trace b = Trace.trace b.val) ∧
    (∀ r : Rc α, Trace.trace r = Trace.trace r.val) ∧
    (∀ r : Arc α, Trace.trace r = Trace.trace r.val) := by
  refine ⟨fun n a => ?_, fun s => ?_, fun v => ?_, fun v => ?_, fun v => ?_,
    fun o => ?_, fun r => ?_, fun p => ?_, fun t => ?_,
    fun _ => rfl, fun _ => rfl, fun _ => rfl⟩
  · show ((traceEach Trace.trace a.elems : List Handle) : Multiset Handle) = _
    rw [traceEach_gc]
    rfl
  · show ((traceEach Trace.trace s.elems : List Handle) : Multiset Handle) = _
    rw [traceEach_gc]
    rfl
  · show ((traceEach Trace.trace v.elems : List Handle) : Multiset Handle) = _
    rw [traceEach_gc]
    rfl
  · show ((traceEach Trace.trace v.elems : List Handle) : Multiset Handle) = _
    rw [traceEach_gc]
    rfl
  · show ((traceEach Trace.trace v.elems : List Handle) : Multiset Handle) = _
    rw [traceEach_gc]
    rfl
  · cases o with
    | none => rfl
    | some g => rfl
  · cases r with
    | Ok t => rfl
    | Err e => rfl
  · rfl
  · rfl

/-- Claim C2: dropping a scoped root guard performs exactly one backend
unroot call, on the guard's own handle, and changes nothing else: the
destructor body is a single `unroot` invocation, so guard-registered roots
are always balanced. -/
theorem root_drop_unroots_once (σ V T : Type) (S : GcStrategy σ V)
    (r : Root T) (w : HeapState σ V) :
    (Root.drop S r w).log = w.log ++ [BackendEvent.unroot r.handle.handle] ∧
    (Root.drop S r w).strat = S.unroot w.strat r.handle.handle ∧
    (Root.drop S r w).mem = w.mem :=
  ⟨rfl, rfl, rfl⟩

/-- Claim C6: the facade's root operation calls the backend's `root`
exactly once, on the given handle's identifier, and returns a new guard
wrapping the same typed handle. -/
theorem heap_root_calls_backend_once (σ V T : Type) (S : GcStrategy σ V)
    (w : HeapState σ V) (g : Gc T) :
    (GcHeap.root S w g).1 = { handle := g } ∧
    (GcHeap.root S w g).2.log = w.log ++ [BackendEvent.root g.handle] ∧
    (GcHeap.root S w g).2.strat = S.root w.strat g.handle ∧
    (GcHeap.root S w g).2.mem = w.mem :=
  ⟨rfl, rfl, rfl, rfl⟩

/-- Claim C8: `for_type` builds, purely and deterministically, the
descriptor of the managed type: it records the type's layout, and its
trace-dispatch function applied to a value is exactly that type's trace
implementation on the same value. -/
theorem for_type_descriptor (α : Type) [LayoutOf α] [Trace α] :
    (GcVtable.for_type α).layout = LayoutOf.layout α ∧
    (∀ x : α, (GcVtable.for_type α).trace x = Trace.trace x) ∧
    GcVtable.for_type α = GcVtable.for_type α :=
  ⟨rfl, fun _ => rfl, rfl⟩

/-- Claim C4: when the backend's allocate succeeds, the facade's alloc
performs exactly, and in this order: obtain the type's descriptor, call
backend `allocate` with it, write the value at the storage address the
backend returned, call `set_initialized` on the returned handle, and
return a root guard wrapping exactly that handle. -/
theorem alloc_steps_in_order (σ V : Type) [LayoutOf V] [Trace V]
    (S : GcStrategy σ V) (w : HeapState σ V) (value : V)
    (a : FreshAllocation) (s1 : σ)
    (hal : S.allocate w.strat (GcVtable.for_type V) = (some a, s1)) :
    GcHeap.alloc S w value =
      AllocResult.ok { handle := { handle := a.handle } }
        { strat := S.setInitialized s1 a.handle
          mem := fun addr => if addr = a.ptr then some value else w.mem addr
          log := w.log ++
            [BackendEvent.allocate (GcVtable.for_type V).layout,
             BackendEvent.write a.ptr,
             BackendEvent.setInitialized a.handle] } := by
  simp [GcHeap.alloc, callAllocate, writeValue, callSetInitialized, hal]

/-- Witness for C4 at the demonstration backend and the value 42. -/
theorem alloc_steps_in_order_witness :
    demoStrategy.allocate demoState.strat (GcVtable.for_type U8) =
      (some { handle := 0, ptr := 100 }, 1) ∧
    GcHeap.alloc demoStrategy demoState (42 : U8) =
      AllocResult.ok { handle := { handle := 0 } }
        { strat := 1
          mem := fun addr => if addr = 100 then some (42 : U8) else none
          log := [BackendEvent.allocate { size := 1, align := 1 },
                  BackendEvent.write 100,
                  BackendEvent.setInitialized 0] } :=
  ⟨rfl,
   alloc_steps_in_order Nat U8 demoStrategy demoState 42
     { handle := 0, ptr := 100 } 1 rfl⟩

/-- Claim C5: when the backend's allocate reports exhaustion, the facade's
alloc escalates to the fatal out-of-memory abort: it never returns a
guard, and after the failing `allocate` it makes no further calls into the
backend. -/
theorem alloc_exhaustion_aborts (σ V : Type) [LayoutOf V] [Trace V]
    (S : GcStrategy σ V) (w : HeapState σ V) (value : V) (s1 : σ)
    (hal : S.allocate w.strat (GcVtable.for_type V) = (none, s1)) :
    GcHeap.alloc S w value =
      AllocResult.fatal "out of memory"
        { strat := s1
          mem := w.mem
          log := w.log ++
            [BackendEvent.allocate (GcVtable.for_type V).layout] } := by
  simp [GcHeap.alloc, callAllocate, hal]

/-- Witness for C5 at the exhausted demonstration backend. -/
theorem alloc_exhaustion_aborts_witness :
    oomStrategy.allocate demoState.strat (GcVtable.for_type U8) = (none, 0) ∧
    GcHeap.alloc oomStrategy demoState (42 : U8) =
      AllocResult.fatal "out of memory"
        { strat := 0
          mem := fun _ => none
          log := [BackendEvent.allocate { size := 1, align := 1 }] } :=
  ⟨rfl, alloc_exhaustion_aborts Nat U8 oomStrategy demoState 42 0 rfl⟩

/-- Claim C9: on a successful allocation, the guard returned by alloc
dereferences to the typed handle of the fresh allocation, and the storage
address the backend returned holds exactly the value that was allocated,
so an immediate read-back through the root observes an equal value. -/
theorem alloc_round_trip (σ V : Type) [LayoutOf V] [Trace V]
    (S : GcStrategy σ V) (w : HeapState σ V) (value : V)
    (a : FreshAllocation) (s1 : σ)
    (hal : S.allocate w.strat (GcVtable.for_type V) = (some a, s1)) :
    (GcHeap.alloc S w value).derefRoot = some { handle := a.handle } ∧
    (GcHeap.alloc S w value).world.mem a.ptr = some value := by
  simp [GcHeap.alloc, callAllocate, writeValue, callSetInitialized, hal,
    AllocResult.derefRoot, AllocResult.world, Root.deref]

/-- Witness for C9 at the demonstration backend and the value 42. -/
theorem alloc_round_trip_witness :
    demoStrategy.allocate demoState.strat (GcVtable.for_type U8) =
      (some { handle := 0, ptr := 100 }, 1) ∧
    (GcHeap.alloc demoStrategy demoState (42 : U8)).derefRoot =
      some { handle := 0 } ∧
    (GcHeap.alloc demoStrategy demoState (42 : U8)).world.mem 100 =
      some (42 : U8) :=
  ⟨rfl,
   alloc_round_trip Nat U8 demoStrategy demoState 42
     { handle := 0, ptr := 100 } 1 rfl⟩

/-- Claim C10: a successful alloc followed by dropping the returned guard
makes exactly one `allocate` call (whose contract implies the root), no
explicit `root` call at all, and exactly one `unroot` call on the
allocated handle. -/
theorem alloc_never_calls_root (σ V : Type) [LayoutOf V] [Trace V]
    (S : GcStrategy σ V) (w : HeapState σ V) (value : V)
    (a : FreshAllocation) (s1 : σ)
    (hal : S.allocate w.strat (GcVtable.for_type V) = (some a, s1)) :
    (allocThenDrop S w value).log =
      w.log ++
        [BackendEvent.allocate (GcVtable.for_type V).layout,
         BackendEvent.write a.ptr,
         BackendEvent.setInitialized a.handle,
         BackendEvent.unroot a.handle] ∧
    [BackendEvent.allocate (GcVtable.for_type V).layout,
     BackendEvent.write a.ptr,
     BackendEvent.setInitialized a.handle,
     BackendEvent.unroot a.handle].countP (fun e => isRootEvent e) = 0 ∧
    [BackendEvent.allocate (GcVtable.for_type V).layout,
     BackendEvent.write a.ptr,
     BackendEvent.setInitialized a.handle,
     BackendEvent.unroot a.handle].count (BackendEvent.unroot a.handle) = 1 ∧
    [BackendEvent.allocate (GcVtable.for_type V).layout,
     BackendEvent.write a.ptr,
     BackendEvent.setInitialized a.handle,
     BackendEvent.unroot a.handle].countP (fun e => isAllocateEvent e) = 1 := by
  refine ⟨?_, ?_, ?_, ?_⟩
  · simp [allocThenDrop, GcHeap.alloc, callAllocate, writeValue,
      callSetInitialized, Root.drop, callUnroot, hal]
  · simp [List.countP_cons, List.countP_nil, isRootEvent]
  · simp [List.count_cons, List.count_nil]
  · simp [List.countP_cons, List.countP_nil, isRootEvent, isAllocateEvent]

/-- Witness for C10 at the demonstration backend and the value 42. -/
theorem alloc_never_calls_root_witness :
    demoStrategy.allocate demoState.strat (GcVtable.for_type U8) =
      (some { handle := 0, ptr := 100 }, 1) ∧
    ((allocThenDrop demoStrategy demoState (42 : U8)).log =
      [BackendEvent.allocate { size := 1, align := 1 },
       BackendEvent.write 100,
       BackendEvent.setInitialized 0,
       BackendEvent.unroot 0] ∧
    [BackendEvent.allocate { size := 1, align := 1 },
     BackendEvent.write 100,
     BackendEvent.setInitialized 0,
     BackendEvent.unroot 0].countP (fun e => isRootEvent e) = 0 ∧
    [BackendEvent.allocate { size := 1, align := 1 },
     BackendEvent.write 100,
     BackendEvent.setInitialized 0,
     BackendEvent.unroot 0].count (BackendEvent.unroot 0) = 1 ∧
    [BackendEvent.allocate { size := 1, align := 1 },
     BackendEvent.write 100,
     BackendEvent.setInitialized 0,
     BackendEvent.unroot 0].countP (fun e => isAllocateEvent e) = 1) :=
  ⟨rfl,
   alloc_never_calls_root Nat U8 demoStrategy demoState 42
     { handle := 0, ptr := 100 } 1 rfl⟩

end Cgc
